import Mathlib

/-!
Shallow embedding of `src/main.py` (Whisper FastAPI transcription backend).

The request handler `transcribe` is modelled as a pure function of the
filename of the request together with an `Env` record that fixes the outcome of
every effectful step (temp-file creation, reading the uploaded bytes,
writing them, the Transcriber call, and the unlink in the `finally` block).
The handler returns the HTTP response plus an explicit trace of its effects:
temp files created, Transcriber invocations (with the language argument),
unlink attempts, log lines, and the resulting disk state.
-/

namespace WhisperAPI

/-- Log severity, mirroring the `logger.info` / `logger.warning` /
`logger.error` calls in `main.py`. -/
inductive Level
  | info
  | warning
  | error
deriving DecidableEq, Repr

/-- One emitted log line. -/
structure LogEntry where
  level : Level
  msg : String
deriving DecidableEq, Repr

/-- JSON body of a response: either a success body `{"text": s}` or an error
body `{"detail": s}` (as produced by `JSONResponse` resp. `HTTPException`). -/
inductive Body
  | text (s : String)
  | detail (s : String)
deriving DecidableEq, Repr

/-- An HTTP response: status code and JSON body. -/
structure Response where
  status : Nat
  body : Body
deriving DecidableEq, Repr

/-- The set `allowed_types` from `main.py` line 52.
Modelled as a list in the order of the literal. -/
def allowed_types : List String := [".mp3", ".wav", ".m4a"]

/-- The string Python interpolates by joining `allowed_types` with a comma
and a space.  CPython iterates a set in a hash-dependent order; the model
fixes the insertion order of the literal. -/
def allowedTypesJoined : String := ".mp3, .wav, .m4a"

/-- Split a character list around its LAST occurrence of `sep`:
`splitLastChar sep cs = some (p, q)` when `cs = p ++ sep :: q` and `q`
contains no further `sep`; `none` when `cs` contains no `sep`.
Used to model the CPython rfind method on strings. -/
def splitLastChar (sep : Char) : List Char → Option (List Char × List Char)
  | [] => none
  | c :: cs =>
    match splitLastChar sep cs with
    | some (p, q) => some (c :: p, q)
    | none => if c = sep then some ([], cs) else none

/-- The final path component, as the CPython property `PurePath.name`: strip trailing
slashes, then take the part after the last `/`. -/
def pathNameChars (filename : String) : List Char :=
  let cs := (filename.toList.reverse.dropWhile (fun c => c = '/')).reverse
  match splitLastChar '/' cs with
  | some (_, q) => q
  | none => cs

/-- The CPython property `PurePath.suffix`: with i the index of the last
dot in the name, return
`name[i:]` when `0 < i < len(name) - 1`, else `""`.  Equivalently, writing
`name = p ++ '.' :: q` around the last dot: return `'.' :: q` when both `p`
and `q` are nonempty. -/
def pySuffix (filename : String) : String :=
  match splitLastChar '.' (pathNameChars filename) with
  | some (p, q) => if p ≠ [] ∧ q ≠ [] then String.mk ('.' :: q) else ""
  | none => ""

/-- Python lower(), character by character (the extensions at play are
ASCII). -/
def pyLower (s : String) : String := String.mk (s.toList.map Char.toLower)

/-- Model of `file_ext = Path(file.filename).suffix.lower()` (`main.py` line 53). -/
def fileExt (filename : String) : String := pyLower (pySuffix filename)

/-- Value of the optional `"text"` field of the dict returned by
`model.transcribe`: the key may be absent, may map to the Python value `None`, or
may hold a string. -/
inductive TextField
  | absent
  | null
  | str (s : String)
deriving DecidableEq, Repr

/-- Model of `result.get("text", "")`: the stored value when the key is
present (including `None`), else the default `""`.  Here `none` models the
Python value `None`. -/
def dictGetText : TextField → Option String
  | .absent => some ""
  | .null => none
  | .str s => some s

/-- Python strip() with no arguments: remove leading and trailing
whitespace. -/
def pyStrip (s : String) : String :=
  String.mk
    (((s.toList.dropWhile Char.isWhitespace).reverse.dropWhile
      Char.isWhitespace).reverse)

/-- The strip call applied to the result of the `get`: on a string it trims
leading/trailing whitespace; on `None` it raises `AttributeError`. -/
def stripOrRaise : Option String → Except String String
  | some s => .ok (pyStrip s)
  | none => .error "AttributeError: NoneType object has no attribute strip"

/-- Fixed outcomes of the effectful steps of the handler for one request. -/
structure Env where
  /-- Name chosen by `tempfile.NamedTemporaryFile` before the suffix is
  appended; the temp path is `tmpBase ++ file_ext`. -/
  tmpBase : String
  /-- Outcome of `tempfile.NamedTemporaryFile(...)` itself. -/
  tmpCreate : Except String Unit
  /-- Outcome of `await file.read()`. -/
  readRes : Except String Unit
  /-- Outcome of `tmp.write(contents)`. -/
  writeRes : Except String Unit
  /-- Outcome of `model.transcribe(temp_file, language="en")`: an error, or
  a result dict abstracted to its `"text"` field. -/
  transcribeRes : Except String TextField
  /-- Outcome of `os.unlink(temp_file)` in the `finally` block. -/
  unlinkRes : Except String Unit
deriving Repr

/-- Result of one request: the response plus the observable effect trace. -/
structure RunResult where
  response : Response
  /-- Paths of temp files created on disk by this request. -/
  tempCreated : List String
  /-- Transcriber invocations as (path, language) pairs. -/
  transcribeCalls : List (String × String)
  /-- Paths on which `os.unlink` was attempted. -/
  unlinkAttempts : List String
  logs : List LogEntry
  /-- Disk contents (as a list of paths) after the request. -/
  disk : List String
deriving Repr

/-- The 500 detail string built by the `except` block:
`f"Transcription failed: {str(e)}"`. -/
def failMsg (e : String) : String := "Transcription failed: " ++ e

/-- The 400 detail string for a rejected extension (`main.py` lines 56-59). -/
def unsupportedMsg (ext : String) : String :=
  "Unsupported file type: " ++ ext ++ ". Supported types: " ++ allowedTypesJoined

/-- Result of the `try` body after the temp file exists: either the stripped
text or the `str(e)` of the first exception, plus the Transcriber calls and
log lines it produced. -/
structure InnerResult where
  outcome : Except String String
  transcribeCalls : List (String × String)
  logs : List LogEntry
deriving Repr

/-- The `try` body after `NamedTemporaryFile` succeeded (`main.py` lines
70-84): read the upload, write it to the temp file, log, call the
Transcriber with `language="en"`, strip the text, log completion. -/
def runInner (env : Env) (filename path : String) : InnerResult :=
  match env.readRes with
  | .error e => ⟨.error e, [], []⟩
  | .ok _ =>
    match env.writeRes with
    | .error e => ⟨.error e, [], []⟩
    | .ok _ =>
      let logs0 : List LogEntry := [⟨.info, "Processing file: " ++ filename⟩]
      match env.transcribeRes with
      | .error e => ⟨.error e, [(path, "en")], logs0⟩
      | .ok tf =>
        match stripOrRaise (dictGetText tf) with
        | .error e => ⟨.error e, [(path, "en")], logs0⟩
        | .ok text =>
          ⟨.ok text, [(path, "en")],
            logs0 ++ [⟨.info,
              "Transcription completed. Length: " ++ toString text.length ++ " chars"⟩]⟩

/-- Effects of the `finally` block. -/
structure CleanupResult where
  unlinkAttempts : List String
  disk : List String
  logs : List LogEntry
deriving Repr

/-- The `finally` block (`main.py` lines 93-100):
`if temp_file and os.path.exists(temp_file): try: os.unlink(...) except: log`. -/
def cleanup (env : Env) (tempFile : Option String) (disk : List String)
    (logs : List LogEntry) : CleanupResult :=
  match tempFile with
  | none => ⟨[], disk, logs⟩
  | some p =>
    if p ∈ disk then
      match env.unlinkRes with
      | .ok _ =>
        ⟨[p], disk.filter (fun q => q ≠ p),
          logs ++ [⟨.info, "Temporary file cleaned up"⟩]⟩
      | .error e =>
        ⟨[p], disk, logs ++ [⟨.warning, "Failed to delete temp file: " ++ e⟩]⟩
    else ⟨[], disk, logs⟩

/-- Response produced from the outcome of the `try` body: `JSONResponse` with the
text on success, the `HTTPException(500, ...)` from the `except` block on
failure. -/
def respOf : Except String String → Response
  | .ok text => ⟨200, .text text⟩
  | .error e => ⟨500, .detail (failMsg e)⟩

/-- Logs after the `try`/`except`: on failure the `except` block adds
`logger.error(f"Transcription error: {e}")`. -/
def logsAfterTry (logs : List LogEntry) : Except String String → List LogEntry
  | .ok _ => logs
  | .error e => logs ++ [⟨.error, "Transcription error: " ++ e⟩]

/-- The `POST /transcribe` handler (`main.py` lines 42-100), as a function of
the effect environment, the uploaded filename, and the disk before the
request. -/
def transcribe (env : Env) (filename : String) (disk : List String) : RunResult :=
  let ext := fileExt filename
  if ext ∈ allowed_types then
    match env.tmpCreate with
    | .error e =>
      -- NamedTemporaryFile raised: temp_file is still None, the except block
      -- produces the 500, and the `if temp_file` guard of the finally block skips.
      let logs0 : List LogEntry := [⟨.error, "Transcription error: " ++ e⟩]
      let cl := cleanup env none disk logs0
      { response := ⟨500, .detail (failMsg e)⟩, tempCreated := [],
        transcribeCalls := [], unlinkAttempts := cl.unlinkAttempts,
        logs := cl.logs, disk := cl.disk }
    | .ok _ =>
      let path := env.tmpBase ++ ext
      let diskAfterCreate := disk ++ [path]
      let inner := runInner env filename path
      let cl := cleanup env (some path) diskAfterCreate
        (logsAfterTry inner.logs inner.outcome)
      { response := respOf inner.outcome, tempCreated := [path],
        transcribeCalls := inner.transcribeCalls,
        unlinkAttempts := cl.unlinkAttempts, logs := cl.logs, disk := cl.disk }
  else
    { response := ⟨400, .detail (unsupportedMsg ext)⟩, tempCreated := [],
      transcribeCalls := [], unlinkAttempts := [], logs := [], disk := disk }

/-- The first exception raised inside the `try` block, if any (as `str(e)`). -/
def firstFailure (env : Env) : Option String :=
  match env.tmpCreate with
  | .error e => some e
  | .ok _ =>
    match env.readRes with
    | .error e => some e
    | .ok _ =>
      match env.writeRes with
      | .error e => some e
      | .ok _ =>
        match env.transcribeRes with
        | .error e => some e
        | .ok tf =>
          match stripOrRaise (dictGetText tf) with
          | .error e => some e
          | .ok _ => none

/-! Service lifecycle and health endpoint. -/

/-- Model of `whisper.load_model(name)`: loading either succeeds, yielding
a handle carrying the requested model name, or raises. -/
def whisperLoadModel (loadOk : Bool) (loadErr : String) (name : String) :
    Except String String :=
  if loadOk then .ok name else .error loadErr

/-- The model name passed to `whisper.load_model` in `load_model`
(`main.py` line 25). -/
def loadModelArg : String := "tiny"

/-- The hardcoded `"model"` field of the health response (`main.py` line 38). -/
def healthModelField : String := "tiny"

/-- The hardcoded `"service"` field of the health response. -/
def serviceName : String := "Whisper Transcription API"

/-- JSON body of `GET /`. -/
structure HealthBody where
  status : String
  service : String
  model : String
deriving DecidableEq, Repr

/-- The constant body returned by `health_check` (`main.py` lines 32-39). -/
def health_check : HealthBody :=
  { status := "healthy", service := serviceName, model := healthModelField }

/-- Process state after startup: the `model` global is set only when the
startup hook completed; when `load_model` re-raises, uvicorn aborts startup
and the app never serves. -/
inductive ServerState
  | crashed (err : String)
  | serving (modelName : String)
deriving DecidableEq, Repr

/-- The startup hook `load_model` (`main.py` lines 19-29): call
`whisper.load_model("tiny")`; on failure log and re-raise, which is fatal. -/
def startup (loadOk : Bool) (loadErr : String) : ServerState :=
  match whisperLoadModel loadOk loadErr loadModelArg with
  | .ok m => .serving m
  | .error e => .crashed e

/-- Whether the process accepts HTTP requests in this state. -/
def canServe : ServerState → Bool
  | .serving _ => true
  | .crashed _ => false

/-- The `model` global as seen by request handlers. -/
def servingModel : ServerState → Option String
  | .serving m => some m
  | .crashed _ => none

/-- Endpoint `GET /` as served by the process: a response exists only in a serving
state, and then it is the constant `health_check` body with status 200. -/
def respondHealth (s : ServerState) : Option (Nat × HealthBody) :=
  if canServe s then some (200, health_check) else none

/-! Helper lemmas and concrete environments used by the claim theorems. -/

theorem splitLastChar_eq_none {sep : Char} {cs : List Char} (h : sep ∉ cs) :
    splitLastChar sep cs = none := by
  induction cs with
  | nil => rfl
  | cons c cs ih =>
    simp only [List.mem_cons, not_or] at h
    simp [splitLastChar, ih h.2]
    exact fun hc => h.1 hc.symm

/-- The function `runInner` never reads the unlink outcome. -/
theorem runInner_ignores_unlinkRes (env : Env) (u : Except String Unit)
    (filename path : String) :
    runInner { env with unlinkRes := u } filename path =
      runInner env filename path := by
  rcases env with ⟨tb, tc, rr, wr, tr, ur⟩
  rfl

/-- The response is fully determined before the `finally` block runs: it does
not depend on the unlink outcome. -/
theorem response_ignores_unlinkRes (env : Env) (u : Except String Unit)
    (filename : String) (disk : List String) :
    (transcribe { env with unlinkRes := u } filename disk).response =
      (transcribe env filename disk).response := by
  rcases env with ⟨tb, tc, rr, wr, tr, ur⟩
  by_cases hx : fileExt filename ∈ allowed_types
  · cases tc with
    | error e => simp [transcribe, if_pos hx]
    | ok u0 => simp only [transcribe, if_pos hx]; rfl
  · simp [transcribe, if_neg hx]

/-- Environment in which every effectful step succeeds and the Transcriber
returns the example dict of the spec. -/
def envOk : Env :=
  { tmpBase := "/tmp/tmpabc", tmpCreate := .ok (), readRes := .ok (),
    writeRes := .ok (), transcribeRes := .ok (.str "  hello world  "),
    unlinkRes := .ok () }

/-- Environment where `tempfile.NamedTemporaryFile` itself raises. -/
def envNoTmp : Env := { envOk with tmpCreate := .error "No space left on device" }

/-- The Transcriber returns a dict whose `"text"` key maps to `None`. -/
def envNull : Env := { envOk with transcribeRes := .ok .null }

/-- Environment where `await file.read()` raises. -/
def envReadFail : Env := { envOk with readRes := .error "connection reset by peer" }

/-- Environment where `tmp.write(contents)` raises. -/
def envWriteFail : Env := { envOk with writeRes := .error "No space left on device" }

/-- Environment where `model.transcribe` raises. -/
def envModelFail : Env := { envOk with transcribeRes := .error "Failed to load audio" }

/-- Environment where `os.unlink` raises in the `finally` block. -/
def envUnlinkFail : Env := { envOk with unlinkRes := .error "Operation not permitted" }

/-! Claim theorems. -/

/-- C1: for every filename whose lower-cased extension is outside
`{.mp3, .wav, .m4a}`, `POST /transcribe` returns status 400 with a detail
message naming the rejected extension and the allow-list, and the
Transcriber is never invoked: no transcribe call and no temp file created. -/
theorem C1_unsupported_ext_rejected (env : Env) (filename : String)
    (disk : List String) (h : fileExt filename ∉ allowed_types) :
    (transcribe env filename disk).response.status = 400 ∧
    (transcribe env filename disk).response.body =
      Body.detail ("Unsupported file type: " ++ fileExt filename ++
        ". Supported types: " ++ allowedTypesJoined) ∧
    (transcribe env filename disk).transcribeCalls = [] ∧
    (transcribe env filename disk).tempCreated = [] := by
  simp [transcribe, if_neg h, unsupportedMsg]

/-- C1 witness: the concrete filename `doc.pdf` is rejected with 400, the
exact detail message, no Transcriber call, no temp file. -/
theorem C1_witness :
    fileExt "doc.pdf" ∉ allowed_types ∧
    ((transcribe envOk "doc.pdf" []).response.status = 400 ∧
     (transcribe envOk "doc.pdf" []).response.body =
       Body.detail ("Unsupported file type: " ++ fileExt "doc.pdf" ++
         ". Supported types: " ++ allowedTypesJoined) ∧
     (transcribe envOk "doc.pdf" []).transcribeCalls = [] ∧
     (transcribe envOk "doc.pdf" []).tempCreated = []) :=
  ⟨by decide, C1_unsupported_ext_rejected envOk "doc.pdf" [] (by decide)⟩

/-- C4: `GET /` yields a response only in a serving state; the process
serves exactly when the startup model load succeeded, and the served body
says `healthy` and reports the identifier of the very model the request
global state of the request handler holds. -/
theorem C4_health_only_when_loaded (loadOk : Bool) (loadErr : String) :
    (respondHealth (startup loadOk loadErr)).isSome = loadOk ∧
    (∀ r, respondHealth (startup loadOk loadErr) = some r →
      r.1 = 200 ∧ r.2.status = "healthy" ∧
      servingModel (startup loadOk loadErr) = some r.2.model) := by
  cases loadOk <;>
    simp [startup, whisperLoadModel, respondHealth, canServe, servingModel,
      health_check, healthModelField, loadModelArg, serviceName]

/-- C4 witness: with a successful load the health endpoint responds 200 /
healthy and reports the identifier of the loaded model; the claim theorem applied
at a concrete load outcome. -/
theorem C4_witness :
    (respondHealth (startup true "boom")).isSome = true ∧
    ((200, health_check).1 = 200 ∧ (200, health_check).2.status = "healthy" ∧
      servingModel (startup true "boom") = some (200, health_check).2.model) :=
  ⟨(C4_health_only_when_loaded true "boom").1,
   (C4_health_only_when_loaded true "boom").2 (200, health_check) (by decide)⟩

/-- C6: every Transcriber invocation, over all environments and inputs,
passes the fixed language `"en"`; the language is never chosen per request. -/
theorem C6_fixed_language (env : Env) (filename : String) (disk : List String) :
    ∀ c ∈ (transcribe env filename disk).transcribeCalls, c.2 = "en" := by
  rcases env with ⟨tb, tc, rr, wr, tr, ur⟩
  by_cases hx : fileExt filename ∈ allowed_types
  · cases tc with
    | error e => simp [transcribe, if_pos hx]
    | ok u0 =>
      cases rr with
      | error e => simp [transcribe, if_pos hx, runInner]
      | ok u1 =>
        cases wr with
        | error e => simp [transcribe, if_pos hx, runInner]
        | ok u2 =>
          cases tr with
          | error e => simp [transcribe, if_pos hx, runInner]
          | ok tf =>
            cases tf <;>
              simp [transcribe, if_pos hx, runInner, stripOrRaise, dictGetText]
  · simp [transcribe, if_neg hx]

/-- C6 witness: the one call recorded in a successful concrete run carries
language `"en"`. -/
theorem C6_witness : (("/tmp/tmpabc.mp3", "en") : String × String).2 = "en" :=
  C6_fixed_language envOk "a.mp3" [] ("/tmp/tmpabc.mp3", "en") (by decide)

/-- C7: a filename with no dot in its final path component has extension
`""`, which is not in the allow-set, so the request is rejected with 400. -/
theorem C7_no_extension_rejected (env : Env) (filename : String)
    (disk : List String) (h : '.' ∉ pathNameChars filename) :
    pySuffix filename = "" ∧ fileExt filename ∉ allowed_types ∧
    (transcribe env filename disk).response.status = 400 := by
  have hs : pySuffix filename = "" := by
    simp [pySuffix, splitLastChar_eq_none h]
  have hne : fileExt filename ∉ allowed_types := by
    rw [fileExt, hs]; decide
  exact ⟨hs, hne, by simp [transcribe, if_neg hne]⟩

/-- C7 witness: the extensionless filename `noext` gets extension `""` and
a 400 response. -/
theorem C7_witness :
    pySuffix "noext" = "" ∧ fileExt "noext" ∉ allowed_types ∧
    (transcribe envOk "noext" []).response.status = 400 :=
  C7_no_extension_rejected envOk "noext" [] (by decide)

/-- C3 counterexample: when the dict of the Transcriber maps `"text"` to `None`
(Python null), `result.get("text", "")` returns `None`, `.strip()` raises
`AttributeError`, and the request fails with 500 — the response is NOT a
success carrying the empty string, contradicting the null case of the claim. -/
theorem C3_counterexample :
    (transcribe envNull "a.mp3" []).response.status = 500 ∧
    (transcribe envNull "a.mp3" []).response ≠ ⟨200, Body.text ""⟩ := by
  decide

/-- C3 (amended): for a successful transcription the returned text is the
output text stripped of leading/trailing whitespace, and an absent `"text"`
field yields the empty string; a null `"text"` value, however, makes the
strip call raise, so the request fails with 500 instead of returning an
empty string. -/
theorem C3_text_pipeline (env : Env) (filename : String) (disk : List String)
    (hx : fileExt filename ∈ allowed_types)
    (hc : env.tmpCreate = .ok ()) (hr : env.readRes = .ok ())
    (hw : env.writeRes = .ok ()) :
    (∀ s, env.transcribeRes = .ok (.str s) →
      (transcribe env filename disk).response = ⟨200, Body.text (pyStrip s)⟩) ∧
    (env.transcribeRes = .ok .absent →
      (transcribe env filename disk).response = ⟨200, Body.text ""⟩) ∧
    (env.transcribeRes = .ok .null →
      (transcribe env filename disk).response = ⟨500, Body.detail
        (failMsg "AttributeError: NoneType object has no attribute strip")⟩) := by
  rcases env with ⟨tb, tc, rr, wr, tr, ur⟩
  simp only at hc hr hw
  subst hc; subst hr; subst hw
  refine ⟨fun s ht => ?_, fun ht => ?_, fun ht => ?_⟩ <;>
    (simp only at ht; subst ht;
     simp [transcribe, if_pos hx, runInner, stripOrRaise, dictGetText, respOf,
       pyStrip])

/-- C3 witness: on the example output `"  hello world  "` of the spec the
response is exactly 200 with text `"hello world"`. -/
theorem C3_witness :
    (transcribe envOk "a.mp3" []).response = ⟨200, Body.text "hello world"⟩ := by
  have h := (C3_text_pipeline envOk "a.mp3" [] (by decide) rfl rfl rfl).1
    "  hello world  " rfl
  rw [h]; decide

/-- C5: for every accepted upload, a failure of the read, the write, or the
Transcriber call produces a 500 whose detail carries the underlying failure
text; and no run ever ends without a response, whose status is always one of
200, 400, 500. -/
theorem C5_downstream_failures_500 (env : Env) (filename : String)
    (disk : List String) :
    (fileExt filename ∈ allowed_types → env.tmpCreate = .ok () →
      (∀ e, env.readRes = .error e →
        (transcribe env filename disk).response = ⟨500, Body.detail (failMsg e)⟩) ∧
      (∀ e, env.readRes = .ok () → env.writeRes = .error e →
        (transcribe env filename disk).response = ⟨500, Body.detail (failMsg e)⟩) ∧
      (∀ e, env.readRes = .ok () → env.writeRes = .ok () →
        env.transcribeRes = .error e →
        (transcribe env filename disk).response = ⟨500, Body.detail (failMsg e)⟩)) ∧
    ((transcribe env filename disk).response.status = 200 ∨
     (transcribe env filename disk).response.status = 400 ∨
     (transcribe env filename disk).response.status = 500) := by
  rcases env with ⟨tb, tc, rr, wr, tr, ur⟩
  constructor
  · intro hx hc
    simp only at hc; subst hc
    refine ⟨fun e he => ?_, fun e hr he => ?_, fun e hr hw he => ?_⟩
    · simp only at he; subst he
      simp [transcribe, if_pos hx, runInner, respOf]
    · simp only at hr he; subst hr; subst he
      simp [transcribe, if_pos hx, runInner, respOf]
    · simp only at hr hw he; subst hr; subst hw; subst he
      simp [transcribe, if_pos hx, runInner, respOf]
  · by_cases hx : fileExt filename ∈ allowed_types
    · cases tc with
      | error e => simp [transcribe, if_pos hx]
      | ok u0 =>
        cases rr with
        | error e => simp [transcribe, if_pos hx, runInner, respOf]
        | ok u1 =>
          cases wr with
          | error e => simp [transcribe, if_pos hx, runInner, respOf]
          | ok u2 =>
            cases tr with
            | error e => simp [transcribe, if_pos hx, runInner, respOf]
            | ok tf =>
              cases tf <;>
                simp [transcribe, if_pos hx, runInner, respOf, stripOrRaise,
                  dictGetText]
    · simp [transcribe, if_neg hx]

/-- C5 witness: a concrete failing read yields 500 with the underlying text
embedded in the detail, and a fully successful concrete run has status 200. -/
theorem C5_witness :
    (transcribe envReadFail "a.mp3" []).response =
      ⟨500, Body.detail (failMsg "connection reset by peer")⟩ ∧
    ((transcribe envOk "a.mp3" []).response.status = 200 ∨
     (transcribe envOk "a.mp3" []).response.status = 400 ∨
     (transcribe envOk "a.mp3" []).response.status = 500) :=
  ⟨((C5_downstream_failures_500 envReadFail "a.mp3" []).1 (by decide) rfl).1
      "connection reset by peer" rfl,
   (C5_downstream_failures_500 envOk "a.mp3" []).2⟩

/-- C9: for every accepted upload, the run fails with 500 exactly when some
step inside the `try` block raised, and every such 500 carries the single
uniform detail shape: the fixed text `Transcription failed: ` followed by
the underlying message, with no distinction between I/O and Transcriber
failures. -/
theorem C9_uniform_error_shape (env : Env) (filename : String)
    (disk : List String) (hx : fileExt filename ∈ allowed_types) :
    ((transcribe env filename disk).response.status = 500 ↔
      firstFailure env ≠ none) ∧
    (∀ m, firstFailure env = some m →
      (transcribe env filename disk).response.body =
        Body.detail ("Transcription failed: " ++ m)) := by
  rcases env with ⟨tb, tc, rr, wr, tr, ur⟩
  cases tc with
  | error e => simp [transcribe, if_pos hx, firstFailure, failMsg]
  | ok u0 =>
    cases rr with
    | error e =>
      simp [transcribe, if_pos hx, firstFailure, runInner, respOf, failMsg]
    | ok u1 =>
      cases wr with
      | error e =>
        simp [transcribe, if_pos hx, firstFailure, runInner, respOf, failMsg]
      | ok u2 =>
        cases tr with
        | error e =>
          simp [transcribe, if_pos hx, firstFailure, runInner, respOf, failMsg]
        | ok tf =>
          cases tf <;>
            simp [transcribe, if_pos hx, firstFailure, runInner, respOf,
              failMsg, stripOrRaise, dictGetText]

/-- C9 witness: a concrete write failure and a concrete Transcriber failure
both surface as 500 with the same `Transcription failed: ` shape. -/
theorem C9_witness :
    (transcribe envWriteFail "b.wav" []).response.body =
      Body.detail ("Transcription failed: " ++ "No space left on device") ∧
    (transcribe envModelFail "b.wav" []).response.body =
      Body.detail ("Transcription failed: " ++ "Failed to load audio") :=
  ⟨(C9_uniform_error_shape envWriteFail "b.wav" [] (by decide)).2
      "No space left on device" (by decide),
   (C9_uniform_error_shape envModelFail "b.wav" [] (by decide)).2
      "Failed to load audio" (by decide)⟩

/-- C2 counterexample: for an accepted upload whose `NamedTemporaryFile`
call itself raises, zero temp artifacts are created — not exactly one as the
claim states. -/
theorem C2_counterexample :
    fileExt "a.mp3" ∈ allowed_types ∧
    (transcribe envNoTmp "a.mp3" []).tempCreated = [] := by
  decide

/-- C2 (amended): for every accepted upload at most one temp artifact is
created — exactly one when temp-file creation succeeds, none when it fails —
the created artifact always has its deletion attempted, successful deletion
leaves no artifact attributable to the request on disk, and a deletion
failure only adds a warning log and never changes the response. -/
theorem C2_scoped_artifact (env : Env) (filename : String) (disk : List String)
    (hx : fileExt filename ∈ allowed_types) :
    (transcribe env filename disk).tempCreated.length ≤ 1 ∧
    (env.tmpCreate = .ok () →
      (transcribe env filename disk).tempCreated =
        [env.tmpBase ++ fileExt filename] ∧
      (transcribe env filename disk).unlinkAttempts =
        [env.tmpBase ++ fileExt filename]) ∧
    (env.tmpCreate = .ok () → env.unlinkRes = .ok () →
      env.tmpBase ++ fileExt filename ∉ disk →
      (transcribe env filename disk).disk = disk) ∧
    (∀ e, env.unlinkRes = .error e →
      (transcribe env filename disk).response =
        (transcribe { env with unlinkRes := Except.ok () } filename disk).response ∧
      (env.tmpCreate = .ok () →
        LogEntry.mk Level.warning ("Failed to delete temp file: " ++ e) ∈
          (transcribe env filename disk).logs)) := by
  rcases env with ⟨tb, tc, rr, wr, tr, ur⟩
  refine ⟨?_, ?_, ?_, ?_⟩
  · cases tc <;> simp [transcribe, if_pos hx]
  · intro hc; simp only at hc; subst hc
    refine ⟨by simp [transcribe, if_pos hx], ?_⟩
    cases ur <;> simp [transcribe, if_pos hx, cleanup]
  · intro hc hu hfresh
    simp only at hc hu; subst hc; subst hu
    simp [transcribe, if_pos hx, cleanup, List.filter_append,
      List.filter_eq_self]
    intro a ha h
    exact hfresh (h ▸ ha)
  · intro e hu; simp only at hu; subst hu
    refine ⟨(response_ignores_unlinkRes ⟨tb, tc, rr, wr, tr, .error e⟩
      (Except.ok ()) filename disk).symm, ?_⟩
    intro hc; simp only at hc; subst hc
    simp [transcribe, if_pos hx, cleanup]

/-- C2 witness: a fully successful concrete run creates exactly the one
temp path, attempts exactly that unlink, and restores the disk; a concrete
failing unlink leaves the response unchanged and adds the warning log. -/
theorem C2_witness :
    ((transcribe envOk "a.mp3" []).tempCreated =
       [envOk.tmpBase ++ fileExt "a.mp3"] ∧
     (transcribe envOk "a.mp3" []).unlinkAttempts =
       [envOk.tmpBase ++ fileExt "a.mp3"]) ∧
    (transcribe envOk "a.mp3" []).disk = [] ∧
    ((transcribe envUnlinkFail "a.mp3" []).response =
       (transcribe { envUnlinkFail with unlinkRes := Except.ok () }
         "a.mp3" []).response ∧
     LogEntry.mk Level.warning
       ("Failed to delete temp file: " ++ "Operation not permitted") ∈
       (transcribe envUnlinkFail "a.mp3" []).logs) :=
  ⟨(C2_scoped_artifact envOk "a.mp3" [] (by decide)).2.1 rfl,
   (C2_scoped_artifact envOk "a.mp3" [] (by decide)).2.2.1 rfl rfl (by decide),
   ((C2_scoped_artifact envUnlinkFail "a.mp3" [] (by decide)).2.2.2
      "Operation not permitted" rfl).1,
   ((C2_scoped_artifact envUnlinkFail "a.mp3" [] (by decide)).2.2.2
      "Operation not permitted" rfl).2 rfl⟩

/-- C8: with a deterministic successful Transcriber outcome, running the
same upload twice (the second run on the disk the first run left behind)
yields the same 200 response with identical text both times, and the disk
after each run equals the disk before the first — no artifact accumulates. -/
theorem C8_stateless_idempotent (env : Env) (filename : String)
    (disk : List String) (tf : TextField) (t : String)
    (hx : fileExt filename ∈ allowed_types)
    (hc : env.tmpCreate = .ok ()) (hr : env.readRes = .ok ())
    (hw : env.writeRes = .ok ()) (ht : env.transcribeRes = .ok tf)
    (hs : stripOrRaise (dictGetText tf) = .ok t)
    (hu : env.unlinkRes = .ok ())
    (hfresh : env.tmpBase ++ fileExt filename ∉ disk) :
    (transcribe env filename disk).response = ⟨200, Body.text t⟩ ∧
    (transcribe env filename disk).disk = disk ∧
    (transcribe env filename ((transcribe env filename disk).disk)).response =
      ⟨200, Body.text t⟩ ∧
    (transcribe env filename ((transcribe env filename disk).disk)).disk =
      disk := by
  rcases env with ⟨tb, tc, rr, wr, tr, ur⟩
  simp only at hc hr hw ht hu hfresh
  subst hc; subst hr; subst hw; subst ht; subst hu
  have key : ∀ d : List String, tb ++ fileExt filename ∉ d →
      (transcribe ⟨tb, .ok (), .ok (), .ok (), .ok tf, .ok ()⟩
        filename d).response = ⟨200, Body.text t⟩ ∧
      (transcribe ⟨tb, .ok (), .ok (), .ok (), .ok tf, .ok ()⟩
        filename d).disk = d := by
    intro d hd
    constructor
    · simp [transcribe, if_pos hx, runInner, hs, respOf]
    · simp [transcribe, if_pos hx, runInner, hs, cleanup, List.filter_append,
        List.filter_eq_self]
      intro a ha h
      exact hd (h ▸ ha)
  obtain ⟨h1, h2⟩ := key disk hfresh
  refine ⟨h1, h2, ?_, ?_⟩
  · rw [h2]; exact (key disk hfresh).1
  · rw [h2]; exact (key disk hfresh).2

/-- C8 witness: the concrete upload `a.mp3` submitted twice in sequence
yields 200 `hello world` both times and leaves the disk empty. -/
theorem C8_witness :
    (transcribe envOk "a.mp3" []).response = ⟨200, Body.text "hello world"⟩ ∧
    (transcribe envOk "a.mp3" []).disk = [] ∧
    (transcribe envOk "a.mp3"
      ((transcribe envOk "a.mp3" []).disk)).response =
      ⟨200, Body.text "hello world"⟩ ∧
    (transcribe envOk "a.mp3" ((transcribe envOk "a.mp3" []).disk)).disk =
      [] :=
  C8_stateless_idempotent envOk "a.mp3" [] (.str "  hello world  ")
    "hello world" (by decide) rfl rfl rfl rfl rfl rfl (by decide)

/-- C10: the cleanup step is total and safe on every exit path: when
temp-file creation itself fails no unlink is attempted, an unlink is
attempted only on a path that exists on disk at cleanup time (the original
disk plus what this request created), and an unlink failure is swallowed —
the response is the same as if the unlink had succeeded. -/
theorem C10_cleanup_total (env : Env) (filename : String)
    (disk : List String) :
    (∀ e, env.tmpCreate = .error e →
      (transcribe env filename disk).unlinkAttempts = []) ∧
    (∀ p, p ∈ (transcribe env filename disk).unlinkAttempts →
      p ∈ disk ++ (transcribe env filename disk).tempCreated) ∧
    (∀ e, env.unlinkRes = .error e →
      (transcribe env filename disk).response =
        (transcribe { env with unlinkRes := Except.ok () }
          filename disk).response) := by
  rcases env with ⟨tb, tc, rr, wr, tr, ur⟩
  refine ⟨?_, ?_, ?_⟩
  · intro e hc; simp only at hc; subst hc
    by_cases hx : fileExt filename ∈ allowed_types
    · simp [transcribe, if_pos hx, cleanup]
    · simp [transcribe, if_neg hx]
  · intro p hp
    by_cases hx : fileExt filename ∈ allowed_types
    · cases tc with
      | error e => simp [transcribe, if_pos hx, cleanup] at hp
      | ok u0 =>
        cases ur <;>
          simp [transcribe, if_pos hx, cleanup] at hp ⊢ <;> simp [hp]
    · simp [transcribe, if_neg hx] at hp
  · intro e hu; simp only at hu; subst hu
    exact (response_ignores_unlinkRes ⟨tb, tc, rr, wr, tr, .error e⟩
      (Except.ok ()) filename disk).symm

/-- C10 witness: a concrete failed temp-file creation attempts no unlink,
a successful concrete run unlinks only the path it created, and a concrete
unlink failure leaves the response identical to the succeeding-unlink run. -/
theorem C10_witness :
    (transcribe envNoTmp "a.mp3" []).unlinkAttempts = [] ∧
    "/tmp/tmpabc.mp3" ∈ [] ++ (transcribe envOk "a.mp3" []).tempCreated ∧
    (transcribe envUnlinkFail "a.mp3" []).response =
      (transcribe { envUnlinkFail with unlinkRes := Except.ok () }
        "a.mp3" []).response :=
  ⟨(C10_cleanup_total envNoTmp "a.mp3" []).1 "No space left on device" rfl,
   (C10_cleanup_total envOk "a.mp3" []).2.1 "/tmp/tmpabc.mp3" (by decide),
   (C10_cleanup_total envUnlinkFail "a.mp3" []).2.2
     "Operation not permitted" rfl⟩

end WhisperAPI
